import Mathlib

set_option maxRecDepth 100000

/-!
Verification of the EZBuilds backend (src/main.py, src/schemas.py): a
create/list REST layer over a document store. Entity definitions and the
request router are embedded from the source; the document store adapter
(database.py, referenced but not present under src/) is modelled from the
specification (sections 4.2 and 6).
-/

namespace EZBuilds

/-- JSON-like field values stored in documents. Numbers are modelled as
rationals (the code stores ints and floats and never computes with them),
datetimes as integer timestamps, and the only arrays occurring in the
schemas are arrays of strings. -/
inductive Value where
  | vStr (s : String)
  | vNum (q : ℚ)
  | vBool (b : Bool)
  | vDate (t : Int)
  | vArr (elems : List String)
  | vNull
deriving DecidableEq

open Value

/-- A document body: an association list from field names to values. -/
abbrev RawDoc := List (String × Value)

/-- First value bound to key `k`, if any. -/
def lookupField (d : RawDoc) (k : String) : Option Value :=
  match d with
  | [] => none
  | (k2, v) :: rest => if k2 = k then some v else lookupField rest k

/-- Characters of a string, lower-cased: the model of the case-insensitive
(`$options: "i"`) comparisons. -/
def lcStr (s : String) : List Char :=
  s.data.map Char.toLower

/-- `leadsWith pat l` holds when `pat` is an initial segment of `l`. -/
def leadsWith : List Char → List Char → Bool
  | [], _ => true
  | _ :: _, [] => false
  | a :: pat, b :: l => decide (a = b) && leadsWith pat l

/-- `containsSeq pat l` holds when `pat` occurs contiguously inside `l`. -/
def containsSeq (pat : List Char) : List Char → Bool
  | [] => pat.isEmpty
  | b :: l => leadsWith pat (b :: l) || containsSeq pat l

/-- Modelled from the spec: the predicate shapes the router is allowed to
send to the store adapter (section 4.2: "equality, case-insensitive
substring/regex match, or value-in-list"). `pSubCI` is the unanchored
case-insensitive regex `{"$regex": q, "$options": "i"}` read as substring
match per section 8; `pExactCI` is the anchored regex `^u$` with option
`i`, read as exact case-insensitive match per section 6; `pMem` is the
`{"$in": [x]}` membership test against an array field. -/
inductive Pred where
  | pEq (v : Value)
  | pSubCI (pat : String)
  | pExactCI (pat : String)
  | pMem (x : String)
deriving DecidableEq

/-- A conjunction of per-field predicates. -/
abbrev Filter := List (String × Pred)

/-- Modelled from the spec: how the store evaluates one predicate against
the (possibly absent) value of the targeted field. -/
def matchPred (p : Pred) (fv : Option Value) : Bool :=
  match p, fv with
  | Pred.pEq v, some v2 => decide (v2 = v)
  | Pred.pSubCI pat, some (vStr s) => containsSeq (lcStr pat) (lcStr s)
  | Pred.pExactCI pat, some (vStr s) => decide (lcStr pat = lcStr s)
  | Pred.pMem x, some (vArr elems) => decide (x ∈ elems)
  | _, _ => false

/-- A document matches a filter when every conjunct matches. -/
def docMatches (f : Filter) (d : RawDoc) : Bool :=
  f.all (fun kp => matchPred kp.2 (lookupField d kp.1))

/-- A stored document: the store-assigned identifier plus the entity's
serialized fields. Identifiers are modelled as the strings they are
exposed as. -/
structure StoredDoc where
  oid : String
  fields : RawDoc
deriving DecidableEq

/-- The document store: one list of documents per collection name, kept in
insertion order (spec section 4.2: ordering is insertion order). -/
def Store := String → List StoredDoc

/-- The store with no documents in any collection. -/
def emptyStore : Store := fun _ => []

/-- Modelled from the spec: `create_document` of the absent database.py
(section 4.2 `insert`): serialize the entity's fields into a document,
append it to the named collection, return the store-generated identifier
as an opaque string. Identifier generation is modelled as the decimal
numeral of the collection's current size, which makes identifiers within
a collection distinct. -/
def create_document (c : String) (fields : RawDoc) (s : Store) : String × Store :=
  let oid := toString (s c).length
  (oid, fun c2 => if c2 = c then s c ++ [⟨oid, fields⟩] else s c2)

/-- Modelled from the spec: `get_documents` of the absent database.py
(section 4.2 `find`): up to `limit` documents matching the filter, in
insertion order, never failing on no matches. -/
def get_documents (c : String) (f : Filter) (limit : Nat) (s : Store) : List StoredDoc :=
  ((s c).filter (fun d => docMatches f d.fields)).take limit

/-- `_serialize` of main.py: rename the store identifier to a string field
`id` and pass every other field through unchanged. -/
def serialize (d : StoredDoc) : RawDoc :=
  ("id", vStr d.oid) :: d.fields

/-- Insert `n` copies of the same field set into a collection. -/
def insertManyDocs : Nat → String → RawDoc → Store → Store
  | 0, _, _, s => s
  | n + 1, c, fields, s => insertManyDocs n c fields (create_document c fields s).2

/-- Modelled from the spec: pydantic's `HttpUrl` validation (library code
outside the repository): a well-formed URL has an http or https scheme
followed by a nonempty remainder. -/
def isWellFormedUrl (s : String) : Bool :=
  (leadsWith "http://".data s.data && decide (7 < s.data.length))
    || (leadsWith "https://".data s.data && decide (8 < s.data.length))

/-! ### Field extraction, mirroring pydantic validation

Construction of an entity from an untrusted payload fails (returns `none`,
standing for `ValidationError`) when a required field is missing, a value
has the wrong type, or a constraint is violated. -/

/-- A required string field. -/
def reqStr (d : RawDoc) (k : String) : Option String :=
  match lookupField d k with
  | some (vStr s) => some s
  | _ => none

/-- An `Optional[str]` field: absent or null is `none`. -/
def optStr (d : RawDoc) (k : String) : Option (Option String) :=
  match lookupField d k with
  | some (vStr s) => some (some s)
  | some vNull => some none
  | none => some none
  | _ => none

/-- A required string field with a declared default. -/
def strFieldD (d : RawDoc) (k : String) (dflt : String) : Option String :=
  match lookupField d k with
  | some (vStr s) => some s
  | none => some dflt
  | _ => none

/-- A required numeric field. -/
def reqNum (d : RawDoc) (k : String) : Option ℚ :=
  match lookupField d k with
  | some (vNum q) => some q
  | _ => none

/-- A boolean field with a declared default. -/
def boolFieldD (d : RawDoc) (k : String) (dflt : Bool) : Option Bool :=
  match lookupField d k with
  | some (vBool b) => some b
  | none => some dflt
  | _ => none

/-- A list-of-strings field with a declared default. -/
def listFieldD (d : RawDoc) (k : String) (dflt : List String) : Option (List String) :=
  match lookupField d k with
  | some (vArr elems) => some elems
  | none => some dflt
  | _ => none

/-- A required datetime field. -/
def reqDate (d : RawDoc) (k : String) : Option Int :=
  match lookupField d k with
  | some (vDate t) => some t
  | _ => none

/-- An `Optional[datetime]` field. -/
def optDate (d : RawDoc) (k : String) : Option (Option Int) :=
  match lookupField d k with
  | some (vDate t) => some (some t)
  | some vNull => some none
  | none => some none
  | _ => none

/-- A required `HttpUrl` field: must be present and well-formed. -/
def reqUrl (d : RawDoc) (k : String) : Option String :=
  match lookupField d k with
  | some (vStr s) => if isWellFormedUrl s then some s else none
  | _ => none

/-- An `Optional[HttpUrl]` field: absent or null is `none`; a present
string must be well-formed. -/
def optUrl (d : RawDoc) (k : String) : Option (Option String) :=
  match lookupField d k with
  | some (vStr s) => if isWellFormedUrl s then some (some s) else none
  | some vNull => some none
  | none => some none
  | _ => none

/-- Serialize an optional string (or URL) field value. -/
def optV : Option String → Value
  | some s => vStr s
  | none => vNull

/-- Serialize an optional datetime field value. -/
def optDateV : Option Int → Value
  | some t => vDate t
  | none => vNull

/-! ### Entity definitions (schemas.py)

Each pydantic model becomes a structure, a validator from an untrusted
payload (`none` standing for `ValidationError`), and a serializer dumping
every field, defaulted ones included, in declared order. -/

structure Item where
  name : String
  price : ℚ
  category : Option String
  description : Option String
  image_url : Option String
deriving DecidableEq

/-- Validate an Item payload: `price` carries the constraint `ge=0`. -/
def validateItem (d : RawDoc) : Option Item := do
  let name ← reqStr d "name"
  let price ← reqNum d "price"
  if 0 ≤ price then
    let category ← optStr d "category"
    let description ← optStr d "description"
    let image_url ← optUrl d "image_url"
    some ⟨name, price, category, description, image_url⟩
  else
    none

def itemToDoc (e : Item) : RawDoc :=
  [("name", vStr e.name), ("price", vNum e.price), ("category", optV e.category),
   ("description", optV e.description), ("image_url", optV e.image_url)]

structure StaffMember where
  username : String
  role : String
  team : String
  since : Int
  avatar_url : Option String
  active : Bool
deriving DecidableEq

/-- Validate a StaffMember payload. `since` defaults to the current time
(`default_factory=datetime.utcnow`), modelled as the explicit `now`
argument. -/
def validateStaffMember (now : Int) (d : RawDoc) : Option StaffMember := do
  let username ← reqStr d "username"
  let role ← reqStr d "role"
  let team ← reqStr d "team"
  let since ← match lookupField d "since" with
    | some (vDate t) => some t
    | none => some now
    | _ => none
  let avatar_url ← optUrl d "avatar_url"
  let active ← boolFieldD d "active" true
  some ⟨username, role, team, since, avatar_url, active⟩

def staffMemberToDoc (e : StaffMember) : RawDoc :=
  [("username", vStr e.username), ("role", vStr e.role), ("team", vStr e.team),
   ("since", vDate e.since), ("avatar_url", optV e.avatar_url), ("active", vBool e.active)]

structure VoteLink where
  name : String
  url : String
  description : Option String
deriving DecidableEq

/-- Validate a VoteLink payload: `url` is a required `HttpUrl`. -/
def validateVoteLink (d : RawDoc) : Option VoteLink := do
  let name ← reqStr d "name"
  let url ← reqUrl d "url"
  let description ← optStr d "description"
  some ⟨name, url, description⟩

def voteLinkToDoc (e : VoteLink) : RawDoc :=
  [("name", vStr e.name), ("url", vStr e.url), ("description", optV e.description)]

structure Event where
  title : String
  description : String
  starts_at : Int
  ends_at : Option Int
  reward : Option String
  banner_url : Option String
  active : Bool
deriving DecidableEq

def validateEvent (d : RawDoc) : Option Event := do
  let title ← reqStr d "title"
  let description ← reqStr d "description"
  let starts_at ← reqDate d "starts_at"
  let ends_at ← optDate d "ends_at"
  let reward ← optStr d "reward"
  let banner_url ← optUrl d "banner_url"
  let active ← boolFieldD d "active" true
  some ⟨title, description, starts_at, ends_at, reward, banner_url, active⟩

def eventToDoc (e : Event) : RawDoc :=
  [("title", vStr e.title), ("description", vStr e.description),
   ("starts_at", vDate e.starts_at), ("ends_at", optDateV e.ends_at),
   ("reward", optV e.reward), ("banner_url", optV e.banner_url), ("active", vBool e.active)]

structure BlogPost where
  title : String
  content : String
  author : String
  tags : List String
  image_url : Option String
  published : Bool
deriving DecidableEq

def validateBlogPost (d : RawDoc) : Option BlogPost := do
  let title ← reqStr d "title"
  let content ← reqStr d "content"
  let author ← reqStr d "author"
  let tags ← listFieldD d "tags" []
  let image_url ← optUrl d "image_url"
  let published ← boolFieldD d "published" true
  some ⟨title, content, author, tags, image_url, published⟩

def blogPostToDoc (e : BlogPost) : RawDoc :=
  [("title", vStr e.title), ("content", vStr e.content), ("author", vStr e.author),
   ("tags", vArr e.tags), ("image_url", optV e.image_url), ("published", vBool e.published)]

structure Application where
  applicant_discord_id : String
  applicant_name : String
  role_applied : String
  motivation : String
  status : String
deriving DecidableEq

def validateApplication (d : RawDoc) : Option Application := do
  let applicant_discord_id ← reqStr d "applicant_discord_id"
  let applicant_name ← reqStr d "applicant_name"
  let role_applied ← reqStr d "role_applied"
  let motivation ← reqStr d "motivation"
  let status ← strFieldD d "status" "pending"
  some ⟨applicant_discord_id, applicant_name, role_applied, motivation, status⟩

def applicationToDoc (e : Application) : RawDoc :=
  [("applicant_discord_id", vStr e.applicant_discord_id),
   ("applicant_name", vStr e.applicant_name), ("role_applied", vStr e.role_applied),
   ("motivation", vStr e.motivation), ("status", vStr e.status)]

structure StatSummary where
  online_players : ℚ := 0
  total_players : ℚ := 0
  total_money : ℚ := 0
  tps : ℚ := 20
  gamemode : String := "Citybuild"
deriving DecidableEq

def statSummaryToDoc (e : StatSummary) : RawDoc :=
  [("online_players", vNum e.online_players), ("total_players", vNum e.total_players),
   ("total_money", vNum e.total_money), ("tps", vNum e.tps), ("gamemode", vStr e.gamemode)]

structure Announcement where
  title : String
  message : String
  visibility : String
deriving DecidableEq

def validateAnnouncement (d : RawDoc) : Option Announcement := do
  let title ← reqStr d "title"
  let message ← reqStr d "message"
  let visibility ← strFieldD d "visibility" "public"
  some ⟨title, message, visibility⟩

def announcementToDoc (e : Announcement) : RawDoc :=
  [("title", vStr e.title), ("message", vStr e.message), ("visibility", vStr e.visibility)]

structure StaffMeeting where
  title : String
  scheduled_for : Int
  description : Option String
  attendees : List String
deriving DecidableEq

def validateStaffMeeting (d : RawDoc) : Option StaffMeeting := do
  let title ← reqStr d "title"
  let scheduled_for ← reqDate d "scheduled_for"
  let description ← optStr d "description"
  let attendees ← listFieldD d "attendees" []
  some ⟨title, scheduled_for, description, attendees⟩

def staffMeetingToDoc (e : StaffMeeting) : RawDoc :=
  [("title", vStr e.title), ("scheduled_for", vDate e.scheduled_for),
   ("description", optV e.description), ("attendees", vArr e.attendees)]

structure UserAccount where
  discord_id : String
  username : String
  avatar : Option String
  roles : List String
  can_post_blog : Bool
  can_manage_staff : Bool
deriving DecidableEq

def validateUserAccount (d : RawDoc) : Option UserAccount := do
  let discord_id ← reqStr d "discord_id"
  let username ← reqStr d "username"
  let avatar ← optStr d "avatar"
  let roles ← listFieldD d "roles" ["player"]
  let can_post_blog ← boolFieldD d "can_post_blog" false
  let can_manage_staff ← boolFieldD d "can_manage_staff" false
  some ⟨discord_id, username, avatar, roles, can_post_blog, can_manage_staff⟩

def userAccountToDoc (e : UserAccount) : RawDoc :=
  [("discord_id", vStr e.discord_id), ("username", vStr e.username),
   ("avatar", optV e.avatar), ("roles", vArr e.roles),
   ("can_post_blog", vBool e.can_post_blog), ("can_manage_staff", vBool e.can_manage_staff)]

/-! ### Request router (main.py)

Each GET endpoint builds its filter from the query parameters exactly as
main.py does: a string parameter contributes a conjunct only when it is
present AND non-empty (Python truthiness of `if q:`), while an
`Optional[bool]` parameter contributes whenever it is present (`if active
is not None:`). The `limit` parameter is passed explicitly; its default
value in the code is recorded in each doc comment. -/

/-- One conjunct from a truthy string query parameter. -/
def strFilt (k : String) (o : Option String) (mk : String → Pred) : Filter :=
  match o with
  | some v => if v = "" then [] else [(k, mk v)]
  | none => []

/-- One conjunct from a present boolean query parameter. -/
def boolFilt (k : String) (o : Option Bool) : Filter :=
  match o with
  | some b => [(k, Pred.pEq (vBool b))]
  | none => []

/-- Filter of GET /items: case-insensitive regex on `name`, read as
substring match. -/
def itemsFilt (q : Option String) : Filter :=
  strFilt "name" q Pred.pSubCI

/-- GET /items (default limit 100). -/
def list_items (q : Option String) (limit : Nat) (s : Store) : List RawDoc :=
  (get_documents "item" (itemsFilt q) limit s).map serialize

/-- POST /items: validate, then insert; a `ValidationError` (`none`)
leaves the store untouched. -/
def create_item (d : RawDoc) (s : Store) : Option String × Store :=
  match validateItem d with
  | none => (none, s)
  | some e =>
    let r := create_document "item" (itemToDoc e) s
    (some r.1, r.2)

/-- Filter of GET /staff: equality on `role` and `team` when truthy,
equality on `active` when present. -/
def staffFilt (role team : Option String) (active : Option Bool) : Filter :=
  strFilt "role" role (fun v => Pred.pEq (vStr v))
    ++ strFilt "team" team (fun v => Pred.pEq (vStr v))
    ++ boolFilt "active" active

/-- GET /staff (default limit 200). -/
def list_staff (role team : Option String) (active : Option Bool) (limit : Nat)
    (s : Store) : List RawDoc :=
  (get_documents "staffmember" (staffFilt role team active) limit s).map serialize

/-- POST /staff. `now` is the clock value used for a defaulted `since`. -/
def create_staff (now : Int) (d : RawDoc) (s : Store) : Option String × Store :=
  match validateStaffMember now d with
  | none => (none, s)
  | some e =>
    let r := create_document "staffmember" (staffMemberToDoc e) s
    (some r.1, r.2)

/-- GET /votes (default limit 20): no filters. -/
def list_votes (limit : Nat) (s : Store) : List RawDoc :=
  (get_documents "votelink" [] limit s).map serialize

/-- POST /votes. -/
def create_vote (d : RawDoc) (s : Store) : Option String × Store :=
  match validateVoteLink d with
  | none => (none, s)
  | some e =>
    let r := create_document "votelink" (voteLinkToDoc e) s
    (some r.1, r.2)

/-- GET /events (default limit 50). -/
def list_events (active : Option Bool) (limit : Nat) (s : Store) : List RawDoc :=
  (get_documents "event" (boolFilt "active" active) limit s).map serialize

/-- POST /events. -/
def create_event (d : RawDoc) (s : Store) : Option String × Store :=
  match validateEvent d with
  | none => (none, s)
  | some e =>
    let r := create_document "event" (eventToDoc e) s
    (some r.1, r.2)

/-- Filter of GET /blogs: membership of `tag` in the `tags` array when
truthy, equality on `published` when present; `published` defaults to
`some true` when the query omits it. -/
def blogsFilt (tag : Option String) (published : Option Bool) : Filter :=
  strFilt "tags" tag Pred.pMem ++ boolFilt "published" published

/-- GET /blogs (default limit 50, default published `some true`). -/
def list_blogs (tag : Option String) (published : Option Bool) (limit : Nat)
    (s : Store) : List RawDoc :=
  (get_documents "blogpost" (blogsFilt tag published) limit s).map serialize

/-- POST /blogs. -/
def create_blog (d : RawDoc) (s : Store) : Option String × Store :=
  match validateBlogPost d with
  | none => (none, s)
  | some e =>
    let r := create_document "blogpost" (blogPostToDoc e) s
    (some r.1, r.2)

/-- GET /applications (default limit 100). -/
def list_applications (status : Option String) (limit : Nat) (s : Store) : List RawDoc :=
  (get_documents "application" (strFilt "status" status (fun v => Pred.pEq (vStr v))) limit s).map
    serialize

/-- POST /applications. -/
def create_application (d : RawDoc) (s : Store) : Option String × Store :=
  match validateApplication d with
  | none => (none, s)
  | some e =>
    let r := create_document "application" (applicationToDoc e) s
    (some r.1, r.2)

/-- GET /stats/summary: first stored document if any, else a document
synthesized from `StatSummary`'s declared defaults (never persisted). -/
def get_stats_summary (s : Store) : RawDoc :=
  match get_documents "statsummary" [] 1 s with
  | [] => statSummaryToDoc {}
  | d :: _ => serialize d

/-- Filter of GET /stats/players: the code sends the anchored
case-insensitive regex `^username$`, i.e. exact case-insensitive match. -/
def playersFilt (username : Option String) : Filter :=
  strFilt "username" username Pred.pExactCI

/-- GET /stats/players (default limit 100). -/
def get_player_stats (username : Option String) (limit : Nat) (s : Store) : List RawDoc :=
  (get_documents "playerstat" (playersFilt username) limit s).map serialize

/-- Filter of GET /announcements: equality on `visibility` when truthy;
the parameter defaults to `some "public"` when the query omits it. -/
def announcementsFilt (visibility : Option String) : Filter :=
  strFilt "visibility" visibility (fun v => Pred.pEq (vStr v))

/-- GET /announcements (default limit 50, default visibility
`some "public"`). -/
def list_announcements (visibility : Option String) (limit : Nat) (s : Store) : List RawDoc :=
  (get_documents "announcement" (announcementsFilt visibility) limit s).map serialize

/-- POST /announcements. -/
def create_announcement (d : RawDoc) (s : Store) : Option String × Store :=
  match validateAnnouncement d with
  | none => (none, s)
  | some e =>
    let r := create_document "announcement" (announcementToDoc e) s
    (some r.1, r.2)

/-- GET /meetings (default limit 50): no filters. -/
def list_meetings (limit : Nat) (s : Store) : List RawDoc :=
  (get_documents "staffmeeting" [] limit s).map serialize

/-- POST /meetings. -/
def create_meeting (d : RawDoc) (s : Store) : Option String × Store :=
  match validateStaffMeeting d with
  | none => (none, s)
  | some e =>
    let r := create_document "staffmeeting" (staffMeetingToDoc e) s
    (some r.1, r.2)

/-- Filter of GET /users: membership of `role` in the `roles` array when
truthy. -/
def usersFilt (role : Option String) : Filter :=
  strFilt "roles" role Pred.pMem

/-- GET /users (default limit 100). -/
def list_users (role : Option String) (limit : Nat) (s : Store) : List RawDoc :=
  (get_documents "useraccount" (usersFilt role) limit s).map serialize

/-- POST /users. -/
def create_user (d : RawDoc) (s : Store) : Option String × Store :=
  match validateUserAccount d with
  | none => (none, s)
  | some e =>
    let r := create_document "useraccount" (userAccountToDoc e) s
    (some r.1, r.2)

/-! ### Concrete inputs and stores used by witnesses and counterexamples -/

/-- A store holding one StatSummary document (the default values). -/
def stSum1 : Store := (create_document "statsummary" (statSummaryToDoc {}) emptyStore).2

/-- A store holding one item named "Diamond Sword". -/
def stDS : Store := (create_item [("name", vStr "Diamond Sword"), ("price", vNum 3)] emptyStore).2

/-- A store holding 101 items named "a": one more than the default limit. -/
def st101Items : Store := insertManyDocs 101 "item" [("name", vStr "a")] emptyStore

/-- A store holding one player stat for username "Notch". -/
def stNotch : Store := (create_document "playerstat" [("username", vStr "Notch")] emptyStore).2

/-- A store holding 101 player stats for username "a". -/
def st101Players : Store := insertManyDocs 101 "playerstat" [("username", vStr "a")] emptyStore

/-- A store holding one staff user account and one player-only account. -/
def stUsers2 : Store :=
  (create_document "useraccount" [("roles", vArr ["player"])]
    (create_document "useraccount" [("roles", vArr ["staff", "player"])] emptyStore).2).2

/-- A store holding 101 user accounts whose roles list is ["staff"]. -/
def st101Users : Store := insertManyDocs 101 "useraccount" [("roles", vArr ["staff"])] emptyStore

/-- A store holding one staff-visibility announcement. -/
def stAnnStaff : Store :=
  (create_announcement [("title", vStr "t"), ("message", vStr "m"), ("visibility", vStr "staff")]
    emptyStore).2

/-- A store holding two documents in each of the ten listable collections. -/
def stTwoEach : Store :=
  insertManyDocs 2 "item" []
    (insertManyDocs 2 "staffmember" []
      (insertManyDocs 2 "votelink" []
        (insertManyDocs 2 "event" []
          (insertManyDocs 2 "blogpost" [("published", vBool true)]
            (insertManyDocs 2 "application" []
              (insertManyDocs 2 "playerstat" []
                (insertManyDocs 2 "announcement" []
                  (insertManyDocs 2 "staffmeeting" []
                    (insertManyDocs 2 "useraccount" [] emptyStore)))))))))

/-- A blog payload that is valid but unpublished. -/
def rawBlogUnpub : RawDoc :=
  [("title", vStr "t"), ("content", vStr "c"), ("author", vStr "a"), ("published", vBool false)]

/-- A minimal valid Item payload. -/
def rawItemW : RawDoc := [("name", vStr "Sword"), ("price", vNum 3)]

/-- A minimal valid StaffMember payload. -/
def rawStaffW : RawDoc :=
  [("username", vStr "u"), ("role", vStr "Mod"), ("team", vStr "Moderation")]

/-- A minimal valid VoteLink payload. -/
def rawVoteW : RawDoc := [("name", vStr "v"), ("url", vStr "https://vote.gg")]

/-- A minimal valid Event payload. -/
def rawEventW : RawDoc :=
  [("title", vStr "e"), ("description", vStr "d"), ("starts_at", vDate 5)]

/-- A minimal valid BlogPost payload. -/
def rawBlogW : RawDoc := [("title", vStr "t"), ("content", vStr "c"), ("author", vStr "a")]

/-- A minimal valid Application payload. -/
def rawApplicationW : RawDoc :=
  [("applicant_discord_id", vStr "1"), ("applicant_name", vStr "n"),
   ("role_applied", vStr "Mod"), ("motivation", vStr "m")]

/-- A minimal valid Announcement payload. -/
def rawAnnouncementW : RawDoc := [("title", vStr "t"), ("message", vStr "m")]

/-- A minimal valid StaffMeeting payload. -/
def rawMeetingW : RawDoc := [("title", vStr "t"), ("scheduled_for", vDate 7)]

/-- A minimal valid UserAccount payload. -/
def rawUserW : RawDoc := [("discord_id", vStr "1"), ("username", vStr "u")]

/-! ### Helper lemmas -/

theorem serialize_inj {d1 d2 : StoredDoc} (h : serialize d1 = serialize d2) : d1 = d2 := by
  cases d1
  cases d2
  simp only [serialize, List.cons.injEq, Prod.mk.injEq, Value.vStr.injEq] at h
  simp [h.1.2, h.2]

theorem mem_map_serialize {d : StoredDoc} {l : List StoredDoc} :
    serialize d ∈ l.map serialize ↔ d ∈ l := by
  constructor
  · intro h
    rcases List.mem_map.mp h with ⟨d2, hd2, hser⟩
    exact serialize_inj hser.symm ▸ hd2
  · intro h
    exact List.mem_map.mpr ⟨d, h, rfl⟩

theorem docMatches_nil (d : RawDoc) : docMatches [] d = true := rfl

theorem docMatches_single (k : String) (p : Pred) (d : RawDoc) :
    docMatches [(k, p)] d = matchPred p (lookupField d k) := by
  simp [docMatches, List.all]

theorem get_documents_of_count_le {c : String} {f : Filter} {k : Nat} {s : Store}
    (h : ((s c).filter (fun d => docMatches f d.fields)).length ≤ k) :
    get_documents c f k s = (s c).filter (fun d => docMatches f d.fields) := by
  simpa [get_documents] using List.take_of_length_le h

theorem length_get_documents {c : String} {f : Filter} {k : Nat} {s : Store}
    (h : k ≤ ((s c).filter (fun d => docMatches f d.fields)).length) :
    (get_documents c f k s).length = k := by
  simp [get_documents, List.length_take, Nat.min_eq_left h]

/-! ### Claim theorems -/

/-- C4: if no StatSummary document has ever been inserted, GET
/stats/summary returns an object built purely from the declared defaults
(online_players=0, total_players=0, total_money=0, tps=20.0,
gamemode="Citybuild"); if at least one StatSummary document is stored, it
returns the first stored document. -/
theorem stats_summary_defaults_or_first (s : Store) :
    (s "statsummary" = [] →
      get_stats_summary s =
        [("online_players", vNum 0), ("total_players", vNum 0), ("total_money", vNum 0),
         ("tps", vNum 20), ("gamemode", vStr "Citybuild")]) ∧
    (∀ d rest, s "statsummary" = d :: rest → get_stats_summary s = serialize d) := by
  constructor
  · intro h
    simp [get_stats_summary, get_documents, h, statSummaryToDoc]
  · intro d rest h
    simp [get_stats_summary, get_documents, h, docMatches_nil]

/-- C4 witness: on the empty store the defaults come back; with one stored
summary the first stored document comes back. -/
theorem stats_summary_defaults_or_first_witness :
    get_stats_summary emptyStore =
      [("online_players", vNum 0), ("total_players", vNum 0), ("total_money", vNum 0),
       ("tps", vNum 20), ("gamemode", vStr "Citybuild")] ∧
    get_stats_summary stSum1 = serialize ⟨"0", statSummaryToDoc {}⟩ := by
  constructor
  · exact (stats_summary_defaults_or_first emptyStore).1 rfl
  · exact (stats_summary_defaults_or_first stSum1).2 ⟨"0", statSummaryToDoc {}⟩ [] rfl

/-- C10: a synthesized default summary has no `id` field and exactly the
five declared StatSummary fields; a stored summary is returned with its
store identifier renamed to the string field `id` and every other field
passed through unchanged. -/
theorem stats_summary_shape (s : Store) :
    (s "statsummary" = [] →
      lookupField (get_stats_summary s) "id" = none ∧
      (get_stats_summary s).map Prod.fst =
        ["online_players", "total_players", "total_money", "tps", "gamemode"]) ∧
    (∀ d rest, s "statsummary" = d :: rest →
      get_stats_summary s = ("id", vStr d.oid) :: d.fields) := by
  constructor
  · intro h
    simp [get_stats_summary, get_documents, h, statSummaryToDoc, lookupField]
  · intro d rest h
    simp [get_stats_summary, get_documents, h, docMatches_nil, serialize]

/-- C10 witness: shape of the synthesized default on the empty store and
of the serialized stored document on a one-document store. -/
theorem stats_summary_shape_witness :
    (lookupField (get_stats_summary emptyStore) "id" = none ∧
      (get_stats_summary emptyStore).map Prod.fst =
        ["online_players", "total_players", "total_money", "tps", "gamemode"]) ∧
    get_stats_summary stSum1 = ("id", vStr "0") :: statSummaryToDoc {} := by
  constructor
  · exact (stats_summary_shape emptyStore).1 rfl
  · exact (stats_summary_shape stSum1).2 ⟨"0", statSummaryToDoc {}⟩ [] rfl

/-- C5: an Item with negative price fails validation, a VoteLink with a
malformed url fails validation; for every non-negative price and every
well-formed url, construction succeeds with those field values. -/
theorem validation_price_and_url :
    validateItem [("name", vStr "Sword"), ("price", vNum (-1))] = none ∧
    validateVoteLink [("name", vStr "TopVote"), ("url", vStr "not-a-url")] = none ∧
    (∀ nm p, 0 ≤ p →
      validateItem [("name", vStr nm), ("price", vNum p)] = some ⟨nm, p, none, none, none⟩) ∧
    (∀ nm u, isWellFormedUrl u = true →
      validateVoteLink [("name", vStr nm), ("url", vStr u)] = some ⟨nm, u, none⟩) := by
  refine ⟨by decide, by decide, ?_, ?_⟩
  · intro nm p hp
    simp [validateItem, reqStr, reqNum, optStr, optUrl, lookupField, hp]
  · intro nm u hu
    simp [validateVoteLink, reqStr, reqUrl, optStr, lookupField, hu]

/-- C5 witness: a concrete non-negative price and a concrete well-formed
url construct successfully. -/
theorem validation_price_and_url_witness :
    validateItem [("name", vStr "Sword"), ("price", vNum 3)] =
      some ⟨"Sword", 3, none, none, none⟩ ∧
    validateVoteLink [("name", vStr "TopVote"), ("url", vStr "https://vote.gg")] =
      some ⟨"TopVote", "https://vote.gg", none⟩ := by
  constructor
  · exact validation_price_and_url.2.2.1 "Sword" 3 (by norm_num)
  · exact validation_price_and_url.2.2.2 "TopVote" "https://vote.gg" (by decide)

/-- C6: for every entity type with a create operation, a payload that
fails validation is rejected with ValidationError before any store insert
is attempted, leaving the store unchanged. -/
theorem create_rejects_invalid_unchanged :
    (∀ d s, validateItem d = none → create_item d s = (none, s)) ∧
    (∀ now d s, validateStaffMember now d = none → create_staff now d s = (none, s)) ∧
    (∀ d s, validateVoteLink d = none → create_vote d s = (none, s)) ∧
    (∀ d s, validateEvent d = none → create_event d s = (none, s)) ∧
    (∀ d s, validateBlogPost d = none → create_blog d s = (none, s)) ∧
    (∀ d s, validateApplication d = none → create_application d s = (none, s)) ∧
    (∀ d s, validateAnnouncement d = none → create_announcement d s = (none, s)) ∧
    (∀ d s, validateStaffMeeting d = none → create_meeting d s = (none, s)) ∧
    (∀ d s, validateUserAccount d = none → create_user d s = (none, s)) := by
  refine ⟨?_, ?_, ?_, ?_, ?_, ?_, ?_, ?_, ?_⟩
  · intro d s h; simp [create_item, h]
  · intro now d s h; simp [create_staff, h]
  · intro d s h; simp [create_vote, h]
  · intro d s h; simp [create_event, h]
  · intro d s h; simp [create_blog, h]
  · intro d s h; simp [create_application, h]
  · intro d s h; simp [create_announcement, h]
  · intro d s h; simp [create_meeting, h]
  · intro d s h; simp [create_user, h]

/-- C6 witness: the empty payload fails validation for every entity type
(all have at least one required field) and the store is unchanged. -/
theorem create_rejects_invalid_unchanged_witness :
    create_item [] emptyStore = (none, emptyStore) ∧
    create_staff 0 [] emptyStore = (none, emptyStore) ∧
    create_vote [] emptyStore = (none, emptyStore) ∧
    create_event [] emptyStore = (none, emptyStore) ∧
    create_blog [] emptyStore = (none, emptyStore) ∧
    create_application [] emptyStore = (none, emptyStore) ∧
    create_announcement [] emptyStore = (none, emptyStore) ∧
    create_meeting [] emptyStore = (none, emptyStore) ∧
    create_user [] emptyStore = (none, emptyStore) :=
  ⟨create_rejects_invalid_unchanged.1 [] emptyStore rfl,
   create_rejects_invalid_unchanged.2.1 0 [] emptyStore rfl,
   create_rejects_invalid_unchanged.2.2.1 [] emptyStore rfl,
   create_rejects_invalid_unchanged.2.2.2.1 [] emptyStore rfl,
   create_rejects_invalid_unchanged.2.2.2.2.1 [] emptyStore rfl,
   create_rejects_invalid_unchanged.2.2.2.2.2.1 [] emptyStore rfl,
   create_rejects_invalid_unchanged.2.2.2.2.2.2.1 [] emptyStore rfl,
   create_rejects_invalid_unchanged.2.2.2.2.2.2.2.1 [] emptyStore rfl,
   create_rejects_invalid_unchanged.2.2.2.2.2.2.2.2 [] emptyStore rfl⟩

/-- C9: an empty-string value for a string query parameter is treated as
if the parameter were absent (Python truthiness): items `q`, staff
`role`/`team`, blogs `tag`, applications `status`, player stats
`username`, users `role`, and announcements `visibility` all apply no
filter on the empty string; in particular announcements with
visibility="" return every visibility (the last two conjuncts: on a store
holding one staff announcement, the omitted-parameter default "public"
returns nothing while the empty string returns it). -/
theorem empty_string_param_unfiltered :
    (∀ l s, list_items (some "") l s = list_items none l s) ∧
    (∀ a l s, list_staff (some "") (some "") a l s = list_staff none none a l s) ∧
    (∀ p l s, list_blogs (some "") p l s = list_blogs none p l s) ∧
    (∀ l s, list_applications (some "") l s = list_applications none l s) ∧
    (∀ l s, get_player_stats (some "") l s = get_player_stats none l s) ∧
    (∀ l s, list_users (some "") l s = list_users none l s) ∧
    (∀ l s, list_announcements (some "") l s = ((s "announcement").take l).map serialize) ∧
    list_announcements (some "public") 50 stAnnStaff = [] ∧
    list_announcements (some "") 50 stAnnStaff =
      [("id", vStr "0") :: announcementToDoc ⟨"t", "m", "staff"⟩] := by
  refine ⟨fun l s => rfl, fun a l s => rfl, fun p l s => rfl, fun l s => rfl,
    fun l s => rfl, fun l s => rfl, ?_, by decide, by decide⟩
  intro l s
  simp [list_announcements, announcementsFilt, strFilt, get_documents, docMatches_nil]

/-- C8: every list operation respects `limit`: with more matching
documents in the store than `k`, listing with limit `k` returns exactly
`k` documents. -/
theorem list_respects_limit :
    (∀ q k s, 0 < k →
      k < ((s "item").filter (fun d => docMatches (itemsFilt q) d.fields)).length →
      (list_items q k s).length = k) ∧
    (∀ role team a k s, 0 < k →
      k < ((s "staffmember").filter
        (fun d => docMatches (staffFilt role team a) d.fields)).length →
      (list_staff role team a k s).length = k) ∧
    (∀ k s, 0 < k → k < (s "votelink").length → (list_votes k s).length = k) ∧
    (∀ a k s, 0 < k →
      k < ((s "event").filter (fun d => docMatches (boolFilt "active" a) d.fields)).length →
      (list_events a k s).length = k) ∧
    (∀ tag p k s, 0 < k →
      k < ((s "blogpost").filter (fun d => docMatches (blogsFilt tag p) d.fields)).length →
      (list_blogs tag p k s).length = k) ∧
    (∀ st k s, 0 < k →
      k < ((s "application").filter
        (fun d => docMatches (strFilt "status" st (fun v => Pred.pEq (vStr v))) d.fields)).length →
      (list_applications st k s).length = k) ∧
    (∀ u k s, 0 < k →
      k < ((s "playerstat").filter (fun d => docMatches (playersFilt u) d.fields)).length →
      (get_player_stats u k s).length = k) ∧
    (∀ v k s, 0 < k →
      k < ((s "announcement").filter
        (fun d => docMatches (announcementsFilt v) d.fields)).length →
      (list_announcements v k s).length = k) ∧
    (∀ k s, 0 < k → k < (s "staffmeeting").length → (list_meetings k s).length = k) ∧
    (∀ r k s, 0 < k →
      k < ((s "useraccount").filter (fun d => docMatches (usersFilt r) d.fields)).length →
      (list_users r k s).length = k) := by
  refine ⟨?_, ?_, ?_, ?_, ?_, ?_, ?_, ?_, ?_, ?_⟩
  · intro q k s _ h
    simp [list_items, List.length_map, length_get_documents h.le]
  · intro role team a k s _ h
    simp [list_staff, List.length_map, length_get_documents h.le]
  · intro k s _ h
    have h2 : k ≤ ((s "votelink").filter
        (fun d => docMatches ([] : Filter) d.fields)).length := by
      simpa [docMatches_nil] using h.le
    simp [list_votes, List.length_map, length_get_documents h2]
  · intro a k s _ h
    simp [list_events, List.length_map, length_get_documents h.le]
  · intro tag p k s _ h
    simp [list_blogs, List.length_map, length_get_documents h.le]
  · intro st k s _ h
    simp [list_applications, List.length_map, length_get_documents h.le]
  · intro u k s _ h
    simp [get_player_stats, List.length_map, length_get_documents h.le]
  · intro v k s _ h
    simp [list_announcements, List.length_map, length_get_documents h.le]
  · intro k s _ h
    have h2 : k ≤ ((s "staffmeeting").filter
        (fun d => docMatches ([] : Filter) d.fields)).length := by
      simpa [docMatches_nil] using h.le
    simp [list_meetings, List.length_map, length_get_documents h2]
  · intro r k s _ h
    simp [list_users, List.length_map, length_get_documents h.le]

/-- C8 witness: on a store with two documents in every listable
collection, every list operation with limit 1 returns exactly one
document. -/
theorem list_respects_limit_witness :
    (list_items none 1 stTwoEach).length = 1 ∧
    (list_staff none none none 1 stTwoEach).length = 1 ∧
    (list_votes 1 stTwoEach).length = 1 ∧
    (list_events none 1 stTwoEach).length = 1 ∧
    (list_blogs none (some true) 1 stTwoEach).length = 1 ∧
    (list_applications none 1 stTwoEach).length = 1 ∧
    (get_player_stats none 1 stTwoEach).length = 1 ∧
    (list_announcements none 1 stTwoEach).length = 1 ∧
    (list_meetings 1 stTwoEach).length = 1 ∧
    (list_users none 1 stTwoEach).length = 1 :=
  ⟨list_respects_limit.1 none 1 stTwoEach (by decide) (by decide),
   list_respects_limit.2.1 none none none 1 stTwoEach (by decide) (by decide),
   list_respects_limit.2.2.1 1 stTwoEach (by decide) (by decide),
   list_respects_limit.2.2.2.1 none 1 stTwoEach (by decide) (by decide),
   list_respects_limit.2.2.2.2.1 none (some true) 1 stTwoEach (by decide) (by decide),
   list_respects_limit.2.2.2.2.2.1 none 1 stTwoEach (by decide) (by decide),
   list_respects_limit.2.2.2.2.2.2.1 none 1 stTwoEach (by decide) (by decide),
   list_respects_limit.2.2.2.2.2.2.2.1 none 1 stTwoEach (by decide) (by decide),
   list_respects_limit.2.2.2.2.2.2.2.2.1 1 stTwoEach (by decide) (by decide),
   list_respects_limit.2.2.2.2.2.2.2.2.2 none 1 stTwoEach (by decide) (by decide)⟩

/-- C1 (amended): for every entity type exposing both a create and a list
operation, creating one valid instance into an empty store and then
invoking the list operation with no query parameters (so every parameter
takes its declared default) returns exactly one object whose fields other
than `id` equal those of the created instance — provided the instance
satisfies the list operation's default filter: `published = true` for
blog posts and `visibility = "public"` for announcements; the other seven
entity types carry no proviso. -/
theorem create_then_list_roundtrip :
    (∀ d e, validateItem d = some e →
      list_items none 100 (create_item d emptyStore).2 = [("id", vStr "0") :: itemToDoc e]) ∧
    (∀ now d e, validateStaffMember now d = some e →
      list_staff none none none 200 (create_staff now d emptyStore).2 =
        [("id", vStr "0") :: staffMemberToDoc e]) ∧
    (∀ d e, validateVoteLink d = some e →
      list_votes 20 (create_vote d emptyStore).2 = [("id", vStr "0") :: voteLinkToDoc e]) ∧
    (∀ d e, validateEvent d = some e →
      list_events none 50 (create_event d emptyStore).2 = [("id", vStr "0") :: eventToDoc e]) ∧
    (∀ d e, validateBlogPost d = some e → e.published = true →
      list_blogs none (some true) 50 (create_blog d emptyStore).2 =
        [("id", vStr "0") :: blogPostToDoc e]) ∧
    (∀ d e, validateApplication d = some e →
      list_applications none 100 (create_application d emptyStore).2 =
        [("id", vStr "0") :: applicationToDoc e]) ∧
    (∀ d e, validateAnnouncement d = some e → e.visibility = "public" →
      list_announcements (some "public") 50 (create_announcement d emptyStore).2 =
        [("id", vStr "0") :: announcementToDoc e]) ∧
    (∀ d e, validateStaffMeeting d = some e →
      list_meetings 50 (create_meeting d emptyStore).2 =
        [("id", vStr "0") :: staffMeetingToDoc e]) ∧
    (∀ d e, validateUserAccount d = some e →
      list_users none 100 (create_user d emptyStore).2 =
        [("id", vStr "0") :: userAccountToDoc e]) := by
  refine ⟨?_, ?_, ?_, ?_, ?_, ?_, ?_, ?_, ?_⟩
  · intro d e h
    cases e
    simp only [create_item, h]
    rfl
  · intro now d e h
    cases e
    simp only [create_staff, h]
    rfl
  · intro d e h
    cases e
    simp only [create_vote, h]
    rfl
  · intro d e h
    cases e
    simp only [create_event, h]
    rfl
  · intro d e h hp
    cases e
    simp only at hp
    subst hp
    simp only [create_blog, h]
    rfl
  · intro d e h
    cases e
    simp only [create_application, h]
    rfl
  · intro d e h hp
    cases e
    simp only at hp
    subst hp
    simp only [create_announcement, h]
    rfl
  · intro d e h
    cases e
    simp only [create_meeting, h]
    rfl
  · intro d e h
    cases e
    simp only [create_user, h]
    rfl

/-- C1 counterexample: a BlogPost with `published = false` is a valid
instance, yet creating it into an empty store and listing blogs with no
query parameters (default `published = some true`) returns zero objects,
not one. -/
theorem create_then_list_roundtrip_cex :
    validateBlogPost rawBlogUnpub = some ⟨"t", "c", "a", [], none, false⟩ ∧
    list_blogs none (some true) 50 (create_blog rawBlogUnpub emptyStore).2 = [] :=
  ⟨rfl, rfl⟩

/-- C1 witness: one concrete valid payload per entity type round-trips
through create and list. -/
theorem create_then_list_roundtrip_witness :
    list_items none 100 (create_item rawItemW emptyStore).2 =
      [("id", vStr "0") :: itemToDoc ⟨"Sword", 3, none, none, none⟩] ∧
    list_staff none none none 200 (create_staff 0 rawStaffW emptyStore).2 =
      [("id", vStr "0") :: staffMemberToDoc ⟨"u", "Mod", "Moderation", 0, none, true⟩] ∧
    list_votes 20 (create_vote rawVoteW emptyStore).2 =
      [("id", vStr "0") :: voteLinkToDoc ⟨"v", "https://vote.gg", none⟩] ∧
    list_events none 50 (create_event rawEventW emptyStore).2 =
      [("id", vStr "0") :: eventToDoc ⟨"e", "d", 5, none, none, none, true⟩] ∧
    list_blogs none (some true) 50 (create_blog rawBlogW emptyStore).2 =
      [("id", vStr "0") :: blogPostToDoc ⟨"t", "c", "a", [], none, true⟩] ∧
    list_applications none 100 (create_application rawApplicationW emptyStore).2 =
      [("id", vStr "0") :: applicationToDoc ⟨"1", "n", "Mod", "m", "pending"⟩] ∧
    list_announcements (some "public") 50 (create_announcement rawAnnouncementW emptyStore).2 =
      [("id", vStr "0") :: announcementToDoc ⟨"t", "m", "public"⟩] ∧
    list_meetings 50 (create_meeting rawMeetingW emptyStore).2 =
      [("id", vStr "0") :: staffMeetingToDoc ⟨"t", 7, none, []⟩] ∧
    list_users none 100 (create_user rawUserW emptyStore).2 =
      [("id", vStr "0") :: userAccountToDoc ⟨"1", "u", none, ["player"], false, false⟩] :=
  ⟨create_then_list_roundtrip.1 rawItemW ⟨"Sword", 3, none, none, none⟩ (by decide),
   create_then_list_roundtrip.2.1 0 rawStaffW ⟨"u", "Mod", "Moderation", 0, none, true⟩
     (by decide),
   create_then_list_roundtrip.2.2.1 rawVoteW ⟨"v", "https://vote.gg", none⟩ (by decide),
   create_then_list_roundtrip.2.2.2.1 rawEventW ⟨"e", "d", 5, none, none, none, true⟩
     (by decide),
   create_then_list_roundtrip.2.2.2.2.1 rawBlogW ⟨"t", "c", "a", [], none, true⟩
     (by decide) rfl,
   create_then_list_roundtrip.2.2.2.2.2.1 rawApplicationW ⟨"1", "n", "Mod", "m", "pending"⟩
     (by decide),
   create_then_list_roundtrip.2.2.2.2.2.2.1 rawAnnouncementW ⟨"t", "m", "public"⟩
     (by decide) rfl,
   create_then_list_roundtrip.2.2.2.2.2.2.2.1 rawMeetingW ⟨"t", 7, none, []⟩ (by decide),
   create_then_list_roundtrip.2.2.2.2.2.2.2.2 rawUserW ⟨"1", "u", none, ["player"], false, false⟩
     (by decide)⟩

/-- C2 (amended): for every stored item and every non-empty query string
`q`, GET /items with parameter `q` (default limit 100) returns that item
if and only if `q` is a case-insensitive substring of the item's name —
provided the number of matching stored items does not exceed the limit
(the operation returns only the first 100 matches). -/
theorem items_q_substring_iff (s : Store) (q nm : String) (d : StoredDoc)
    (hq : q ≠ "")
    (hcount : ((s "item").filter
      (fun d2 => docMatches (itemsFilt (some q)) d2.fields)).length ≤ 100)
    (hnm : lookupField d.fields "name" = some (vStr nm))
    (hmem : d ∈ s "item") :
    serialize d ∈ list_items (some q) 100 s ↔ containsSeq (lcStr q) (lcStr nm) = true := by
  unfold list_items
  rw [get_documents_of_count_le hcount, mem_map_serialize, List.mem_filter]
  have hfilt : itemsFilt (some q) = [("name", Pred.pSubCI q)] := by
    simp [itemsFilt, strFilt, hq]
  rw [hfilt, docMatches_single, hnm]
  simp [matchPred, hmem]

/-- C2 counterexample: with 101 stored items named "a", the item with
identifier "100" is stored and "a" is a substring of its name, yet GET
/items with q="a" (default limit 100) does not return it. -/
theorem items_q_substring_cex :
    (⟨"100", [("name", vStr "a")]⟩ : StoredDoc) ∈ st101Items "item" ∧
    containsSeq (lcStr "a") (lcStr "a") = true ∧
    serialize ⟨"100", [("name", vStr "a")]⟩ ∉ list_items (some "a") 100 st101Items :=
  ⟨by decide, by decide, by decide⟩

/-- C2 witness: the stored "Diamond Sword" item is returned for q="sword"
and not returned for q="Axe". -/
theorem items_q_substring_iff_witness :
    serialize ⟨"0", itemToDoc ⟨"Diamond Sword", 3, none, none, none⟩⟩ ∈
      list_items (some "sword") 100 stDS ∧
    serialize ⟨"0", itemToDoc ⟨"Diamond Sword", 3, none, none, none⟩⟩ ∉
      list_items (some "Axe") 100 stDS := by
  constructor
  · exact (items_q_substring_iff stDS "sword" "Diamond Sword" _ (by decide) (by decide)
      (by decide) (by decide)).mpr (by decide)
  · intro hmem
    exact absurd ((items_q_substring_iff stDS "Axe" "Diamond Sword" _ (by decide) (by decide)
      (by decide) (by decide)).mp hmem) (by decide)

/-- C3 (amended): for every stored player stat and every non-empty
username parameter `u`, GET /stats/players with parameter `u` (default
limit 100) returns that document if and only if its stored username
equals `u` up to letter case (exact case-insensitive match) — provided
the number of matching stored documents does not exceed the limit. -/
theorem players_username_exact_iff (s : Store) (u nm : String) (d : StoredDoc)
    (hu : u ≠ "")
    (hcount : ((s "playerstat").filter
      (fun d2 => docMatches (playersFilt (some u)) d2.fields)).length ≤ 100)
    (hnm : lookupField d.fields "username" = some (vStr nm))
    (hmem : d ∈ s "playerstat") :
    serialize d ∈ get_player_stats (some u) 100 s ↔ lcStr nm = lcStr u := by
  unfold get_player_stats
  rw [get_documents_of_count_le hcount, mem_map_serialize, List.mem_filter]
  have hfilt : playersFilt (some u) = [("username", Pred.pExactCI u)] := by
    simp [playersFilt, strFilt, hu]
  rw [hfilt, docMatches_single, hnm]
  simp [matchPred, hmem, eq_comm]

/-- C3 counterexample: with 101 stored player stats for username "a", the
document with identifier "100" is stored and its username equals u="a"
exactly, yet GET /stats/players with u="a" (default limit 100) does not
return it. -/
theorem players_username_exact_cex :
    (⟨"100", [("username", vStr "a")]⟩ : StoredDoc) ∈ st101Players "playerstat" ∧
    lcStr "a" = lcStr "a" ∧
    serialize ⟨"100", [("username", vStr "a")]⟩ ∉ get_player_stats (some "a") 100 st101Players :=
  ⟨by decide, rfl, by decide⟩

/-- C3 witness: the stored "Notch" player stat is returned for u="notch"
(case-insensitive exact match) and not returned for the proper substring
u="Not". -/
theorem players_username_exact_iff_witness :
    serialize ⟨"0", [("username", vStr "Notch")]⟩ ∈
      get_player_stats (some "notch") 100 stNotch ∧
    serialize ⟨"0", [("username", vStr "Notch")]⟩ ∉
      get_player_stats (some "Not") 100 stNotch := by
  constructor
  · exact (players_username_exact_iff stNotch "notch" "Notch" _ (by decide) (by decide)
      (by decide) (by decide)).mpr (by decide)
  · intro hmem
    exact absurd ((players_username_exact_iff stNotch "Not" "Notch" _ (by decide) (by decide)
      (by decide) (by decide)).mp hmem) (by decide)

/-- C7 (amended): for every non-empty role parameter `r`, GET /users
(default limit 100) returns a stored account if and only if its `roles`
list contains `r` as an element — provided the number of matching stored
accounts does not exceed the limit. -/
theorem users_role_membership_iff (s : Store) (r : String) (roles : List String) (d : StoredDoc)
    (hr : r ≠ "")
    (hcount : ((s "useraccount").filter
      (fun d2 => docMatches (usersFilt (some r)) d2.fields)).length ≤ 100)
    (hroles : lookupField d.fields "roles" = some (vArr roles))
    (hmem : d ∈ s "useraccount") :
    serialize d ∈ list_users (some r) 100 s ↔ r ∈ roles := by
  unfold list_users
  rw [get_documents_of_count_le hcount, mem_map_serialize, List.mem_filter]
  have hfilt : usersFilt (some r) = [("roles", Pred.pMem r)] := by
    simp [usersFilt, strFilt, hr]
  rw [hfilt, docMatches_single, hroles]
  simp [matchPred, hmem]

/-- C7 counterexample: with 101 stored accounts whose roles list is
["staff"], the account with identifier "100" is stored and its roles list
contains "staff", yet GET /users with role="staff" (default limit 100)
does not return it. -/
theorem users_role_membership_cex :
    (⟨"100", [("roles", vArr ["staff"])]⟩ : StoredDoc) ∈ st101Users "useraccount" ∧
    "staff" ∈ ["staff"] ∧
    serialize ⟨"100", [("roles", vArr ["staff"])]⟩ ∉ list_users (some "staff") 100 st101Users :=
  ⟨by decide, by decide, by decide⟩

/-- C7 witness: filtering by role="staff" returns the account whose roles
list contains "staff" and excludes the account whose roles list is only
["player"]. -/
theorem users_role_membership_iff_witness :
    serialize ⟨"0", [("roles", vArr ["staff", "player"])]⟩ ∈
      list_users (some "staff") 100 stUsers2 ∧
    serialize ⟨"1", [("roles", vArr ["player"])]⟩ ∉
      list_users (some "staff") 100 stUsers2 := by
  constructor
  · exact (users_role_membership_iff stUsers2 "staff" ["staff", "player"] _ (by decide)
      (by decide) (by decide) (by decide)).mpr (by decide)
  · intro hmem
    exact absurd ((users_role_membership_iff stUsers2 "staff" ["player"] _ (by decide)
      (by decide) (by decide) (by decide)).mp hmem) (by decide)

end EZBuilds
